import Mathlib

/-!
# Shallow embedding of the Investec API client (`src/utils.py`)

The core of the repository is `InvestecClient` in `src/utils.py`: a stateful
OAuth2 client-credentials authenticator (`_get_token`), a shared authenticated
request primitive (`_make_request`), thin per-endpoint wrappers, and a
configuration loader (`get_investec_api_client`).

Modelling conventions:
* JSON documents are modelled by the inductive `JValue`; a parsed response
  body is a `JValue` and object-field access `data["k"]` is `JValue.getKey`
  (a missing key raises `KeyError` in Python, modelled as a `PyError.keyError`
  outcome; a present key of the wrong type for arithmetic raises `TypeError`,
  modelled as `PyError.typeError`).
* Time (`time.time()`) is modelled as an integer number of seconds passed in
  as a parameter `now`; the two clock reads inside one `_get_token` call are
  modelled as the same instant.
* The network is modelled by passing in the `Response` the server would give:
  `tokenResp` for the identity endpoint, `resourceResp` for the resource
  endpoint.  Whether the embedded function consumed such a response
  (`madeRequest`, `resourceRequests`) records exactly which network calls the
  Python code would perform.
* Python truthiness of the optional values the code tests with bare `if` is
  modelled explicitly (`JValue.truthy`, `optTruthy`, `pyTruthyStr`).
* `httpx.Response.raise_for_status` raises for every non-2xx status
  (`isSuccess`); the resulting `httpx.HTTPStatusError` carries the status and
  body (`PyError.httpStatusError`).  The AuthenticationError/ApiError of the spec
  are both this exception in the source, distinguished only by whether the
  identity request (`getToken`) or the resource request (`makeRequest`)
  raised it.
* Python `float` arguments are only ever passed to `str(...)` by this code,
  so they are modelled opaquely by that decimal string (`PyFloat`).
-/

namespace Investec

/-- A JSON value, as produced by `response.json()`. Objects keep their fields
as an association list in insertion order. -/
inductive JValue where
  | null : JValue
  | bool : Bool → JValue
  | num : Int → JValue
  | str : String → JValue
  | arr : List JValue → JValue
  | obj : List (String × JValue) → JValue

/-- `data[k]` lookup on a parsed JSON document: a value only when `data` is an
object that has field `k`. -/
def JValue.getKey : JValue → String → Option JValue
  | .obj fields, k => fields.lookup k
  | _, _ => none

/-- The numeric reading of a JSON value, used where Python would do
arithmetic with it (`time.time() + data["expires_in"] - 60`). -/
def JValue.asInt : JValue → Option Int
  | .num n => some n
  | _ => none

/-- Python truthiness of a JSON value (`None`, `False`, `0`, `""`, `[]`, and
`{}` are falsy). -/
def JValue.truthy : JValue → Bool
  | .null => false
  | .bool b => b
  | .num n => n != 0
  | .str s => s != ""
  | .arr l => !l.isEmpty
  | .obj l => !l.isEmpty

/-- Python truthiness of an optional JSON value (`if self.access_token:`). -/
def optTruthy : Option JValue → Bool
  | none => false
  | some v => v.truthy

/-- Python truthiness of an `Optional[str]` (`if from_date:`): `None` and the
empty string are falsy. -/
def pyTruthyStr : Option String → Bool
  | none => false
  | some s => s != ""

/-- Mutable state of an `InvestecClient` instance: the three credentials set
in `__init__` and the token state mutated by `_get_token`
(`self.access_token = None`, `self.token_expires_at = 0` initially). -/
structure InvestecClient where
  client_id : String
  client_secret : String
  api_key : String
  access_token : Option JValue
  token_expires_at : Int

/-- `InvestecClient.API_BASE_URL`. -/
def API_BASE_URL : String := "https://openapi.investec.com"

/-- `InvestecClient.TOKEN_URL`. -/
def TOKEN_URL : String := API_BASE_URL ++ "/identity/v2/oauth2/token"

/-- `InvestecClient.API_URL`. -/
def API_URL : String := API_BASE_URL ++ "/za/pb/v1"

/-- The fixed scope string set in `__init__`. -/
def scopeString : String :=
  "accounts balances transactions transfers beneficiarypayments documents.statements documents.taxcertificates"

/-- `InvestecClient.__init__(client_id, client_secret, api_key)`. -/
def InvestecClient.init (client_id client_secret api_key : String) : InvestecClient :=
  { client_id := client_id
    client_secret := client_secret
    api_key := api_key
    access_token := none
    token_expires_at := 0 }

/-- An HTTP response from the backend: status code and parsed JSON body. -/
structure Response where
  status : Nat
  body : JValue

/-- `httpx` success statuses: `raise_for_status` returns normally exactly for
2xx responses and raises `HTTPStatusError` otherwise. -/
def isSuccess (status : Nat) : Bool := 200 ≤ status && status < 300

/-- The exceptions the embedded code can raise: `httpx.HTTPStatusError`
(carrying the response status and body), `KeyError` (missing JSON field) and
`TypeError` (JSON field of an unusable type). -/
inductive PyError where
  | httpStatusError : Nat → JValue → PyError
  | keyError : String → PyError
  | typeError : String → PyError

/-- Outcome of one `_get_token` call: whether the identity endpoint was
contacted, the exception raised (if any), and the client state afterwards. -/
structure GetTokenResult where
  madeRequest : Bool
  error : Option PyError
  state : InvestecClient

/-- The fast-path guard of `_get_token`:
`if self.access_token and time.time() < self.token_expires_at`. -/
def tokenValid (c : InvestecClient) (now : Int) : Bool :=
  optTruthy c.access_token && decide (now < c.token_expires_at)

/-- `InvestecClient._get_token` (utils.py lines 30-52).  `resp` is the
response the identity endpoint would return if contacted.  Note the source
assigns `self.access_token = data["access_token"]` (line 51) before it
evaluates `data["expires_in"]` (line 52), so a `KeyError`/`TypeError` on
`expires_in` leaves the new access token already stored while
`token_expires_at` is untouched. -/
def getToken (c : InvestecClient) (now : Int) (resp : Response) : GetTokenResult :=
  if tokenValid c now then
    { madeRequest := false, error := none, state := c }
  else if !(isSuccess resp.status) then
    { madeRequest := true
      error := some (.httpStatusError resp.status resp.body)
      state := c }
  else
    match resp.body.getKey "access_token" with
    | none =>
        { madeRequest := true, error := some (.keyError "access_token"), state := c }
    | some tok =>
        let c1 : InvestecClient := { c with access_token := some tok }
        match resp.body.getKey "expires_in" with
        | none =>
            { madeRequest := true, error := some (.keyError "expires_in"), state := c1 }
        | some ev =>
            match ev.asInt with
            | none =>
                { madeRequest := true, error := some (.typeError "expires_in"), state := c1 }
            | some n =>
                { madeRequest := true
                  error := none
                  state := { c1 with token_expires_at := now + n - 60 } }

/-- One HTTP request as handed to `httpx.AsyncClient.request`: method, full
URL, headers, query parameters and optional JSON body. -/
structure RequestSpec where
  method : String
  url : String
  headers : List (String × String)
  params : List (String × String)
  jsonBody : Option JValue

/-- The `**kwargs` that the endpoint wrappers forward to `_make_request`:
optional `params=`, `json=` and `headers=` keyword arguments. -/
structure Kwargs where
  params : Option (List (String × String))
  jsonBody : Option JValue
  headers : Option (List (String × String))

/-- No keyword arguments. -/
def noKwargs : Kwargs := { params := none, jsonBody := none, headers := none }

/-- Python `str()` of the stored token value as interpolated into the
f-string `f"Bearer {self.access_token}"`.  Scalars are rendered exactly;
containers are abbreviated (their rendering never matters: no claim inspects
the Authorization header of a non-string token). -/
def pyStr : JValue → String
  | .null => "None"
  | .bool b => if b then "True" else "False"
  | .num n => toString n
  | .str s => s
  | .arr _ => "[...]"
  | .obj _ => "{}"

/-- `str()` of the `Optional` token field. -/
def pyStrOpt : Option JValue → String
  | none => "None"
  | some v => pyStr v

/-- `dict` assignment `d[k] = v`: overwrite in place if the key exists,
append otherwise. -/
def dictSet (d : List (String × String)) (k v : String) : List (String × String) :=
  if d.any (fun p => p.fst == k) then
    d.map (fun p => if p.fst == k then (k, v) else p)
  else d ++ [(k, v)]

/-- `base.update(extra)` on string dicts. -/
def dictUpdate (base : List (String × String)) : List (String × String) → List (String × String)
  | [] => base
  | kv :: rest => dictUpdate (dictSet base kv.fst kv.snd) rest

/-- The header dict built in `_make_request` before the `kwargs` update. -/
def baseHeaders (c : InvestecClient) : List (String × String) :=
  [("Authorization", "Bearer " ++ pyStrOpt c.access_token),
   ("x-api-key", c.api_key),
   ("Accept", "application/json")]

/-- Outcome of one `_make_request` call: whether the identity endpoint was
contacted, the list of resource requests actually sent (in order), the
exception raised (if any), the returned JSON body (on success) and the
client state afterwards. -/
structure MakeRequestResult where
  tokenRequestMade : Bool
  resourceRequests : List RequestSpec
  error : Option PyError
  result : Option JValue
  state : InvestecClient

/-- `InvestecClient._make_request(method, endpoint, **kwargs)` (utils.py
lines 54-78).  `tokenResp` is the would-be response of the identity endpoint,
`resourceResp` that of the resource endpoint.  A `_get_token` failure propagates
before any resource request is sent; otherwise exactly one resource request
is sent and `raise_for_status`/`response.json()` decide the outcome. -/
def makeRequest (c : InvestecClient) (now : Int) (tokenResp : Response)
    (method endpoint : String) (kw : Kwargs) (resourceResp : Response) :
    MakeRequestResult :=
  let gt := getToken c now tokenResp
  match gt.error with
  | some e =>
      { tokenRequestMade := gt.madeRequest
        resourceRequests := []
        error := some e
        result := none
        state := gt.state }
  | none =>
      let c2 := gt.state
      let url := API_URL ++ endpoint
      let headers := dictUpdate (baseHeaders c2) (kw.headers.getD [])
      let req : RequestSpec :=
        { method := method
          url := url
          headers := headers
          params := kw.params.getD []
          jsonBody := kw.jsonBody }
      if !(isSuccess resourceResp.status) then
        { tokenRequestMade := gt.madeRequest
          resourceRequests := [req]
          error := some (.httpStatusError resourceResp.status resourceResp.body)
          result := none
          state := c2 }
      else
        { tokenRequestMade := gt.madeRequest
          resourceRequests := [req]
          error := none
          result := some resourceResp.body
          state := c2 }

/-- `InvestecClient.get_accounts()`. -/
def get_accounts (c : InvestecClient) (now : Int) (tokenResp resourceResp : Response) :
    MakeRequestResult :=
  makeRequest c now tokenResp "GET" "/accounts" noKwargs resourceResp

/-- `InvestecClient.get_account_balance(account_id)`. -/
def get_account_balance (c : InvestecClient) (now : Int) (tokenResp : Response)
    (account_id : String) (resourceResp : Response) : MakeRequestResult :=
  makeRequest c now tokenResp "GET" ("/accounts/" ++ account_id ++ "/balance")
    noKwargs resourceResp

/-- The `params` dict built by `get_account_transactions` (utils.py lines
124-132): each optional filter is added only when truthy, and
`include_pending` maps to the literal string `"true"`. -/
def transParams (from_date to_date transaction_type : Option String)
    (include_pending : Bool) : List (String × String) :=
  (if pyTruthyStr from_date then [("fromDate", from_date.getD "")] else []) ++
  (if pyTruthyStr to_date then [("toDate", to_date.getD "")] else []) ++
  (if pyTruthyStr transaction_type then [("transactionType", transaction_type.getD "")] else []) ++
  (if include_pending then [("includePending", "true")] else [])

/-- `InvestecClient.get_account_transactions(account_id, from_date, to_date,
transaction_type, include_pending)` (utils.py lines 103-138). -/
def get_account_transactions (c : InvestecClient) (now : Int) (tokenResp : Response)
    (account_id : String) (from_date to_date transaction_type : Option String)
    (include_pending : Bool) (resourceResp : Response) : MakeRequestResult :=
  makeRequest c now tokenResp "GET" ("/accounts/" ++ account_id ++ "/transactions")
    { params := some (transParams from_date to_date transaction_type include_pending)
      jsonBody := none
      headers := none }
    resourceResp

/-- The JSON payload built by `transfer_multiple` (utils.py lines 251-253):
`{"transferList": transfer_list}` plus `profileId` only when `profile_id`
is truthy. -/
def transferPayload (transfer_list : List JValue) (profile_id : Option String) : JValue :=
  .obj ([("transferList", .arr transfer_list)] ++
    (if pyTruthyStr profile_id then [("profileId", .str (profile_id.getD ""))] else []))

/-- `InvestecClient.transfer_multiple(from_account_id, transfer_list,
profile_id)` (utils.py lines 234-260). -/
def transfer_multiple (c : InvestecClient) (now : Int) (tokenResp : Response)
    (from_account_id : String) (transfer_list : List JValue)
    (profile_id : Option String) (resourceResp : Response) : MakeRequestResult :=
  makeRequest c now tokenResp "POST"
    ("/accounts/" ++ from_account_id ++ "/transfermultiple")
    { params := none
      jsonBody := some (transferPayload transfer_list profile_id)
      headers := some [("Content-Type", "application/json")] }
    resourceResp

/-- A Python `float` argument, modelled opaquely by the decimal string that
`str(...)` produces for it: the client code never computes with the amount,
it only stringifies it. -/
structure PyFloat where
  strRepr : String

/-- The one-element `transfer_list` built by `transfer_money` (utils.py
lines 347-354). -/
def transferMoneyList (to_account_id : String) (amount : PyFloat)
    (reference : String) : List JValue :=
  [.obj [("beneficiaryAccountId", .str to_account_id),
         ("amount", .str amount.strRepr),
         ("myReference", .str reference),
         ("theirReference", .str reference)]]

/-- `InvestecClient.transfer_money(from_account_id, to_account_id, amount,
reference)` (utils.py lines 332-355): builds the one-element transfer list
and delegates to `transfer_multiple` with the default `profile_id=None`. -/
def transfer_money (c : InvestecClient) (now : Int) (tokenResp : Response)
    (from_account_id to_account_id : String) (amount : PyFloat)
    (reference : String) (resourceResp : Response) : MakeRequestResult :=
  transfer_multiple c now tokenResp from_account_id
    (transferMoneyList to_account_id amount reference) none resourceResp

/-- `get_investec_api_client()` (utils.py lines 382-394).  `env` models
`os.getenv`: `none` for an unset variable.  `os.getenv(k, "")` is
`(env k).getD ""`, and `not all([...])` is Python truthiness, so an unset
variable and one set to the empty string both fail. -/
def get_investec_api_client (env : String → Option String) :
    Except String InvestecClient :=
  let client_id := (env "INVESTEC_CLIENT_ID").getD ""
  let client_secret := (env "INVESTEC_CLIENT_SECRET").getD ""
  let api_key := (env "INVESTEC_API_KEY").getD ""
  if !(client_id != "" && client_secret != "" && api_key != "") then
    .error ("Missing required environment variables: " ++
      "INVESTEC_CLIENT_ID, INVESTEC_CLIENT_SECRET, or INVESTEC_API_KEY")
  else
    .ok (InvestecClient.init client_id client_secret api_key)

/-- Whether a `get_investec_api_client` call produced a client. -/
def exceptOk : Except String InvestecClient → Bool
  | .ok _ => true
  | .error _ => false

/-! ## Concrete fixtures used by witnesses -/

/-- A freshly constructed client: no token, expiry 0. -/
def cFresh : InvestecClient := InvestecClient.init "id" "secret" "key"

/-- A client holding a token that expires at time 1000. -/
def cHeld : InvestecClient :=
  { client_id := "id", client_secret := "secret", api_key := "key",
    access_token := some (.str "tok"), token_expires_at := 1000 }

/-- A well-formed successful identity-endpoint response. -/
def tokRespOk : Response :=
  ⟨200, .obj [("access_token", .str "tok"), ("expires_in", .num 300)]⟩

/-- A successful resource-endpoint response. -/
def okResp : Response := ⟨200, .obj [("data", .str "x")]⟩

/-! ## Helper lemmas -/

theorem getToken_fast (c : InvestecClient) (now : Int) (resp : Response)
    (h : tokenValid c now = true) :
    getToken c now resp = { madeRequest := false, error := none, state := c } := by
  simp [getToken, h]

theorem getToken_madeRequest (c : InvestecClient) (now : Int) (resp : Response) :
    (getToken c now resp).madeRequest = !tokenValid c now := by
  unfold getToken
  by_cases h : tokenValid c now = true
  · simp [h]
  · simp only [Bool.not_eq_true] at h
    rw [if_neg (by simp [h]), h, Bool.not_false]
    split
    · rfl
    · split
      · rfl
      · split
        · rfl
        · split <;> rfl

/-! ## C1: token request happens iff no token held or token expired -/

/-- C1: for every client state whose held token (if any) is a real,
non-empty token, `_get_token` performs a network token request if and only
if no access token is held or the current time is at or past the stored
expiry; and when it makes no request it returns without error and with the
token state unchanged. -/
theorem getToken_request_iff (c : InvestecClient) (now : Int) (resp : Response)
    (htok : ∀ v, c.access_token = some v → v.truthy = true) :
    ((getToken c now resp).madeRequest = true ↔
      (c.access_token = none ∨ c.token_expires_at ≤ now)) ∧
    ((getToken c now resp).madeRequest = false →
      (getToken c now resp).error = none ∧ (getToken c now resp).state = c) := by
  have hmr := getToken_madeRequest c now resp
  constructor
  · rw [hmr]
    cases hat : c.access_token with
    | none => simp [tokenValid, optTruthy, hat]
    | some v =>
        have hv := htok v hat
        simp [tokenValid, optTruthy, hat, hv, Int.not_lt]
  · intro hf
    rw [hmr] at hf
    have hv : tokenValid c now = true := by
      cases htv : tokenValid c now
      · rw [htv] at hf
        simp at hf
      · rfl
    rw [getToken_fast c now resp hv]
    exact ⟨rfl, rfl⟩

/-- Witness for C1: a held, unexpired token at a concrete state. -/
theorem getToken_request_iff_witness :
    ((getToken cHeld 50 okResp).madeRequest = true ↔
      (cHeld.access_token = none ∨ cHeld.token_expires_at ≤ 50)) ∧
    ((getToken cHeld 50 okResp).madeRequest = false →
      (getToken cHeld 50 okResp).error = none ∧
      (getToken cHeld 50 okResp).state = cHeld) :=
  getToken_request_iff cHeld 50 okResp
    (by intro v hv; simp only [cHeld, Option.some.injEq] at hv; subst hv; decide)

/-! ## C2: token expiry buffer -/

/-- C2: for every successful token response carrying `access_token` and an
integer `expires_in`, `_get_token` succeeds and stores
`token_expires_at = now + expires_in - 60`. -/
theorem getToken_expiry_buffer (c : InvestecClient) (now : Int) (resp : Response)
    (tok : JValue) (n : Int)
    (hv : tokenValid c now = false)
    (hs : isSuccess resp.status = true)
    (htok : resp.body.getKey "access_token" = some tok)
    (hexp : resp.body.getKey "expires_in" = some (.num n)) :
    (getToken c now resp).error = none ∧
    (getToken c now resp).state.access_token = some tok ∧
    (getToken c now resp).state.token_expires_at = now + n - 60 := by
  unfold getToken
  rw [if_neg (by simp [hv]), if_neg (by simp [hs]), htok, hexp]
  exact ⟨rfl, rfl, rfl⟩

/-- Witness for C2: `expires_in = 300` at issue time 1000 stores expiry
`1000 + 300 - 60 = 1240`. -/
theorem getToken_expiry_buffer_witness :
    (getToken cFresh 1000 tokRespOk).error = none ∧
    (getToken cFresh 1000 tokRespOk).state.access_token = some (.str "tok") ∧
    (getToken cFresh 1000 tokRespOk).state.token_expires_at = 1000 + 300 - 60 :=
  getToken_expiry_buffer cFresh 1000 tokRespOk (.str "tok") 300 rfl rfl rfl rfl

/-! ## C3: identity endpoint HTTP error leaves token state untouched -/

/-- A 401 response from the identity endpoint, used by the C3 witness. -/
def r401 : Response := ⟨401, .obj [("message", .str "denied")]⟩

/-- C3: when the identity endpoint answers with a non-success status,
`_get_token` fails with the `HTTPStatusError` carrying that status and body,
the client state is exactly what it was before the call, and a subsequent
call contacts the identity endpoint again. -/
theorem getToken_http_error (c : InvestecClient) (now : Int) (resp : Response)
    (hv : tokenValid c now = false)
    (hs : isSuccess resp.status = false) :
    (getToken c now resp).madeRequest = true ∧
    (getToken c now resp).error = some (.httpStatusError resp.status resp.body) ∧
    (getToken c now resp).state = c ∧
    (∀ resp2, (getToken (getToken c now resp).state now resp2).madeRequest = true) := by
  have hres : getToken c now resp =
      { madeRequest := true
        error := some (.httpStatusError resp.status resp.body)
        state := c } := by
    unfold getToken
    rw [if_neg (by simp [hv]), if_pos (by simp [hs])]
  refine ⟨by rw [hres], by rw [hres], by rw [hres], ?_⟩
  intro resp2
  rw [hres, getToken_madeRequest, hv]
  rfl

/-- Witness for C3: a fresh client against a 401 identity response. -/
theorem getToken_http_error_witness :
    (getToken cFresh 0 r401).error = some (.httpStatusError r401.status r401.body) ∧
    (getToken cFresh 0 r401).state = cFresh ∧
    (getToken (getToken cFresh 0 r401).state 0 r401).madeRequest = true :=
  ⟨(getToken_http_error cFresh 0 r401 rfl rfl).2.1,
   (getToken_http_error cFresh 0 r401 rfl rfl).2.2.1,
   (getToken_http_error cFresh 0 r401 rfl rfl).2.2.2 r401⟩

/-! ## C4: parse failure on a successful token response -/

/-- C4 counterexample: a successful identity response that carries
`access_token` but lacks `expires_in` makes `_get_token` fail with a
`KeyError`, yet the stored access token has been overwritten (line 51 runs
before line 52 raises), so the token state is NOT left exactly as it was. -/
theorem getToken_missing_expiry_mutates :
    (getToken cFresh 0 ⟨200, .obj [("access_token", .str "newtok")]⟩).error =
      some (.keyError "expires_in") ∧
    cFresh.access_token = none ∧
    (getToken cFresh 0 ⟨200, .obj [("access_token", .str "newtok")]⟩).state.access_token =
      some (.str "newtok") :=
  ⟨rfl, rfl, rfl⟩

/-- C4 (amended): on a successful token response lacking an expected field,
`_get_token` fails with a `KeyError` and the stored expiry timestamp is
always left unchanged (so a later call still retries); the stored access
token is left unchanged when `access_token` itself is missing, but when
`access_token` is present and `expires_in` is missing the stored access
token is overwritten with the response value before the failure. -/
theorem getToken_parse_error (c : InvestecClient) (now : Int) (resp : Response)
    (hv : tokenValid c now = false)
    (hs : isSuccess resp.status = true) :
    (resp.body.getKey "access_token" = none →
      getToken c now resp =
        { madeRequest := true, error := some (.keyError "access_token"), state := c }) ∧
    (∀ tok, resp.body.getKey "access_token" = some tok →
      resp.body.getKey "expires_in" = none →
      getToken c now resp =
        { madeRequest := true
          error := some (.keyError "expires_in")
          state := { c with access_token := some tok } }) ∧
    ((getToken c now resp).error.isSome = true →
      (getToken c now resp).state.token_expires_at = c.token_expires_at) := by
  refine ⟨?_, ?_, ?_⟩
  · intro hmiss
    unfold getToken
    rw [if_neg (by simp [hv]), if_neg (by simp [hs]), hmiss]
  · intro tok htok hexp
    unfold getToken
    rw [if_neg (by simp [hv]), if_neg (by simp [hs]), htok, hexp]
  · intro herr
    cases hat : resp.body.getKey "access_token" with
    | none => simp [getToken, hv, hs, hat]
    | some tok =>
        cases hexp : resp.body.getKey "expires_in" with
        | none => simp [getToken, hv, hs, hat, hexp]
        | some ev =>
            cases hint : ev.asInt with
            | none => simp [getToken, hv, hs, hat, hexp, hint]
            | some n => simp [getToken, hv, hs, hat, hexp, hint] at herr

/-- Witness for C4 (amended) at the concrete counterexample input. -/
theorem getToken_parse_error_witness :
    getToken cFresh 0 ⟨200, .obj [("access_token", .str "newtok")]⟩ =
      { madeRequest := true
        error := some (.keyError "expires_in")
        state := { cFresh with access_token := some (.str "newtok") } } :=
  (getToken_parse_error cFresh 0 ⟨200, .obj [("access_token", .str "newtok")]⟩
    rfl rfl).2.1 (.str "newtok") rfl rfl

/-! ## C5: resource requests -- single attempt, error carries status and body,
success returns the body verbatim -/

/-- C5: once authentication succeeded, `_make_request` sends exactly one
resource request (no retry); on a non-success status it fails with the
`HTTPStatusError` carrying that status and body; on success it returns the
parsed JSON body verbatim. -/
theorem makeRequest_single_attempt (c : InvestecClient) (now : Int)
    (tokenResp : Response) (method endpoint : String) (kw : Kwargs)
    (resourceResp : Response)
    (hauth : (getToken c now tokenResp).error = none) :
    (makeRequest c now tokenResp method endpoint kw resourceResp).resourceRequests.length = 1 ∧
    (isSuccess resourceResp.status = false →
      (makeRequest c now tokenResp method endpoint kw resourceResp).error =
        some (.httpStatusError resourceResp.status resourceResp.body) ∧
      (makeRequest c now tokenResp method endpoint kw resourceResp).result = none) ∧
    (isSuccess resourceResp.status = true →
      (makeRequest c now tokenResp method endpoint kw resourceResp).error = none ∧
      (makeRequest c now tokenResp method endpoint kw resourceResp).result =
        some resourceResp.body) := by
  by_cases h : isSuccess resourceResp.status = true
  · simp [makeRequest, hauth, h]
  · simp only [Bool.not_eq_true] at h
    simp [makeRequest, hauth, h]

/-- Witness for C5 at a concrete authenticated call. -/
theorem makeRequest_single_attempt_witness :
    (makeRequest cFresh 0 tokRespOk "GET" "/accounts" noKwargs okResp).resourceRequests.length = 1 ∧
    (isSuccess okResp.status = false →
      (makeRequest cFresh 0 tokRespOk "GET" "/accounts" noKwargs okResp).error =
        some (.httpStatusError okResp.status okResp.body) ∧
      (makeRequest cFresh 0 tokRespOk "GET" "/accounts" noKwargs okResp).result = none) ∧
    (isSuccess okResp.status = true →
      (makeRequest cFresh 0 tokRespOk "GET" "/accounts" noKwargs okResp).error = none ∧
      (makeRequest cFresh 0 tokRespOk "GET" "/accounts" noKwargs okResp).result =
        some okResp.body) :=
  makeRequest_single_attempt cFresh 0 tokRespOk "GET" "/accounts" noKwargs okResp rfl

/-! ## C6: transaction query construction -/

theorem transParams_lookup (fd td tt : Option String) (ip : Bool)
    (hfd : fd = none ∨ ∃ s, fd = some s ∧ s ≠ "")
    (htd : td = none ∨ ∃ s, td = some s ∧ s ≠ "")
    (htt : tt = none ∨ ∃ s, tt = some s ∧ s ≠ "") :
    (transParams fd td tt ip).lookup "fromDate" = fd ∧
    (transParams fd td tt ip).lookup "toDate" = td ∧
    (transParams fd td tt ip).lookup "transactionType" = tt ∧
    (transParams fd td tt ip).lookup "includePending" =
      (if ip then some "true" else none) := by
  rcases hfd with rfl | ⟨s1, rfl, h1⟩ <;>
    rcases htd with rfl | ⟨s2, rfl, h2⟩ <;>
      rcases htt with rfl | ⟨s3, rfl, h3⟩ <;>
        cases ip <;>
          simp [transParams, pyTruthyStr, List.lookup, *]

/-- C6: for every account id and every authenticated call,
`get_account_transactions` issues one GET to
`/accounts/{id}/transactions` whose query has `includePending = "true"`
exactly when `include_pending` is true, maps each supplied (non-empty)
filter to its query key, and has no `fromDate`/`toDate`/`transactionType`
key when the corresponding argument is not supplied. -/
theorem get_account_transactions_query (c : InvestecClient) (now : Int)
    (tokenResp : Response) (account_id : String)
    (fd td tt : Option String) (ip : Bool) (resourceResp : Response)
    (hauth : (getToken c now tokenResp).error = none)
    (hfd : fd = none ∨ ∃ s, fd = some s ∧ s ≠ "")
    (htd : td = none ∨ ∃ s, td = some s ∧ s ≠ "")
    (htt : tt = none ∨ ∃ s, tt = some s ∧ s ≠ "") :
    ∃ req,
      (get_account_transactions c now tokenResp account_id fd td tt ip
        resourceResp).resourceRequests = [req] ∧
      req.method = "GET" ∧
      req.url = API_URL ++ ("/accounts/" ++ account_id ++ "/transactions") ∧
      req.params.lookup "fromDate" = fd ∧
      req.params.lookup "toDate" = td ∧
      req.params.lookup "transactionType" = tt ∧
      req.params.lookup "includePending" = (if ip then some "true" else none) := by
  have hq := transParams_lookup fd td tt ip hfd htd htt
  refine ⟨{ method := "GET"
            url := API_URL ++ ("/accounts/" ++ account_id ++ "/transactions")
            headers := baseHeaders (getToken c now tokenResp).state
            params := transParams fd td tt ip
            jsonBody := none }, ?_, rfl, rfl, hq.1, hq.2.1, hq.2.2.1, hq.2.2.2⟩
  by_cases h : isSuccess resourceResp.status = true
  · simp [get_account_transactions, makeRequest, hauth, h, dictUpdate]
  · simp only [Bool.not_eq_true] at h
    simp [get_account_transactions, makeRequest, hauth, h, dictUpdate]

/-- Witness for C6: account "123", `include_pending = true`, all filters
omitted. -/
theorem get_account_transactions_query_witness :
    ∃ req,
      (get_account_transactions cFresh 0 tokRespOk "123" none none none true
        okResp).resourceRequests = [req] ∧
      req.method = "GET" ∧
      req.url = API_URL ++ ("/accounts/" ++ "123" ++ "/transactions") ∧
      req.params.lookup "fromDate" = none ∧
      req.params.lookup "toDate" = none ∧
      req.params.lookup "transactionType" = none ∧
      req.params.lookup "includePending" = (if true then some "true" else none) :=
  get_account_transactions_query cFresh 0 tokRespOk "123" none none none true okResp
    rfl (Or.inl rfl) (Or.inl rfl) (Or.inl rfl)

/-! ## C7: transfer_money delegates to transfer_multiple -/

/-- C7: `transfer_money` delegates to `transfer_multiple` with a one-element
transfer list whose entry has `beneficiaryAccountId` equal to the
destination account, `amount` equal to the stringified amount, and the same
reference in `myReference` and `theirReference`; the POST body carries no
`profileId` key (the delegation passes `profile_id = None`). -/
theorem transfer_money_payload (c : InvestecClient) (now : Int)
    (tokenResp : Response) (from_account_id to_account_id : String)
    (amount : PyFloat) (reference : String) (resourceResp : Response)
    (hauth : (getToken c now tokenResp).error = none) :
    (transfer_money c now tokenResp from_account_id to_account_id amount
        reference resourceResp =
      transfer_multiple c now tokenResp from_account_id
        (transferMoneyList to_account_id amount reference) none resourceResp) ∧
    ∃ req,
      (transfer_money c now tokenResp from_account_id to_account_id amount
        reference resourceResp).resourceRequests = [req] ∧
      req.method = "POST" ∧
      req.url = API_URL ++ ("/accounts/" ++ from_account_id ++ "/transfermultiple") ∧
      req.jsonBody = some (.obj [("transferList",
        .arr [.obj [("beneficiaryAccountId", .str to_account_id),
                    ("amount", .str amount.strRepr),
                    ("myReference", .str reference),
                    ("theirReference", .str reference)]])]) ∧
      (∀ v, req.jsonBody = some v → v.getKey "profileId" = none) := by
  refine ⟨rfl, ⟨{ method := "POST"
                  url := API_URL ++ ("/accounts/" ++ from_account_id ++ "/transfermultiple")
                  headers := dictUpdate
                    (baseHeaders (getToken c now tokenResp).state)
                    [("Content-Type", "application/json")]
                  params := []
                  jsonBody := some (transferPayload
                    (transferMoneyList to_account_id amount reference) none) },
               ?_, rfl, rfl, rfl, ?_⟩⟩
  · by_cases h : isSuccess resourceResp.status = true
    · simp [transfer_money, transfer_multiple, makeRequest, hauth, h]
    · simp only [Bool.not_eq_true] at h
      simp [transfer_money, transfer_multiple, makeRequest, hauth, h]
  · intro v hv
    injection hv with hv
    subst hv
    rfl

/-- Witness for C7: transfer from "A" to "B" of a float printing "100.0"
with reference "ref". -/
theorem transfer_money_payload_witness :
    (transfer_money cFresh 0 tokRespOk "A" "B" ⟨"100.0"⟩ "ref" okResp =
      transfer_multiple cFresh 0 tokRespOk "A"
        (transferMoneyList "B" ⟨"100.0"⟩ "ref") none okResp) ∧
    ∃ req,
      (transfer_money cFresh 0 tokRespOk "A" "B" ⟨"100.0"⟩ "ref"
        okResp).resourceRequests = [req] ∧
      req.method = "POST" ∧
      req.url = API_URL ++ ("/accounts/" ++ "A" ++ "/transfermultiple") ∧
      req.jsonBody = some (.obj [("transferList",
        .arr [.obj [("beneficiaryAccountId", .str "B"),
                    ("amount", .str (PyFloat.mk "100.0").strRepr),
                    ("myReference", .str "ref"),
                    ("theirReference", .str "ref")]])]) ∧
      (∀ v, req.jsonBody = some v → v.getKey "profileId" = none) :=
  transfer_money_payload cFresh 0 tokRespOk "A" "B" ⟨"100.0"⟩ "ref" okResp rfl

/-! ## C8: credentials are never mutated -/

theorem makeRequest_state (c : InvestecClient) (now : Int) (tokenResp : Response)
    (method endpoint : String) (kw : Kwargs) (resourceResp : Response) :
    (makeRequest c now tokenResp method endpoint kw resourceResp).state =
      (getToken c now tokenResp).state := by
  cases he : (getToken c now tokenResp).error with
  | some e => simp [makeRequest, he]
  | none =>
      by_cases h : isSuccess resourceResp.status = true
      · simp [makeRequest, he, h]
      · simp only [Bool.not_eq_true] at h
        simp [makeRequest, he, h]

/-- C8: no operation mutates the credentials: after any `_get_token` call
and after any `_make_request` call (hence after every endpoint method, all
of which are wrappers over `_make_request`), `client_id`, `client_secret`
and `api_key` equal the values supplied at construction. -/
theorem credentials_immutable (c : InvestecClient) (now : Int) (tokenResp : Response)
    (method endpoint : String) (kw : Kwargs) (resourceResp : Response) :
    ((getToken c now tokenResp).state.client_id = c.client_id ∧
     (getToken c now tokenResp).state.client_secret = c.client_secret ∧
     (getToken c now tokenResp).state.api_key = c.api_key) ∧
    ((makeRequest c now tokenResp method endpoint kw resourceResp).state.client_id = c.client_id ∧
     (makeRequest c now tokenResp method endpoint kw resourceResp).state.client_secret = c.client_secret ∧
     (makeRequest c now tokenResp method endpoint kw resourceResp).state.api_key = c.api_key) := by
  have hg : (getToken c now tokenResp).state.client_id = c.client_id ∧
      (getToken c now tokenResp).state.client_secret = c.client_secret ∧
      (getToken c now tokenResp).state.api_key = c.api_key := by
    unfold getToken
    by_cases h : tokenValid c now = true
    · simp [h]
    · simp only [Bool.not_eq_true] at h
      rw [if_neg (by simp [h])]
      split
      · exact ⟨rfl, rfl, rfl⟩
      · split
        · exact ⟨rfl, rfl, rfl⟩
        · split
          · exact ⟨rfl, rfl, rfl⟩
          · split <;> exact ⟨rfl, rfl, rfl⟩
  refine ⟨hg, ?_⟩
  rw [makeRequest_state c now tokenResp method endpoint kw resourceResp]
  exact hg

/-! ## C9: configuration loading -/

/-- An environment where all three variables are present but the client id
is the empty string. -/
def envEmptyId : String → Option String := fun k =>
  if k = "INVESTEC_CLIENT_ID" then some ""
  else if k = "INVESTEC_CLIENT_SECRET" then some "sec"
  else if k = "INVESTEC_API_KEY" then some "key"
  else none

/-- C9 counterexample: all three variables are present (none is absent), yet
construction fails, because `os.getenv(k, "")` plus the truthiness test
`not all([...])` rejects a present-but-empty credential too. -/
theorem get_client_present_but_empty_fails :
    (envEmptyId "INVESTEC_CLIENT_ID").isSome = true ∧
    (envEmptyId "INVESTEC_CLIENT_SECRET").isSome = true ∧
    (envEmptyId "INVESTEC_API_KEY").isSome = true ∧
    exceptOk (get_investec_api_client envEmptyId) = false :=
  ⟨rfl, rfl, rfl, rfl⟩

theorem getD_empty_iff (o : Option String) :
    o.getD "" = "" ↔ (o = none ∨ o = some "") := by
  cases o <;> simp

/-- C9 (amended): construction fails, producing no client, exactly when at
least one of the three credentials is absent from the environment or set to
the empty string; when all three are present and non-empty it returns a
client holding those values with no token and expiry 0. -/
theorem get_client_spec (env : String → Option String) :
    (exceptOk (get_investec_api_client env) = false ↔
      ((env "INVESTEC_CLIENT_ID" = none ∨ env "INVESTEC_CLIENT_ID" = some "") ∨
       (env "INVESTEC_CLIENT_SECRET" = none ∨ env "INVESTEC_CLIENT_SECRET" = some "") ∨
       (env "INVESTEC_API_KEY" = none ∨ env "INVESTEC_API_KEY" = some ""))) ∧
    (∀ cl, get_investec_api_client env = .ok cl →
      cl = InvestecClient.init ((env "INVESTEC_CLIENT_ID").getD "")
        ((env "INVESTEC_CLIENT_SECRET").getD "")
        ((env "INVESTEC_API_KEY").getD "") ∧
      cl.access_token = none ∧ cl.token_expires_at = 0) := by
  constructor
  · rw [← getD_empty_iff, ← getD_empty_iff, ← getD_empty_iff]
    by_cases h1 : (env "INVESTEC_CLIENT_ID").getD "" = "" <;>
      by_cases h2 : (env "INVESTEC_CLIENT_SECRET").getD "" = "" <;>
        by_cases h3 : (env "INVESTEC_API_KEY").getD "" = "" <;>
          simp [get_investec_api_client, exceptOk, h1, h2, h3]
  · intro cl hcl
    simp only [get_investec_api_client] at hcl
    split at hcl
    · simp at hcl
    · injection hcl with h
      subst h
      exact ⟨rfl, rfl, rfl⟩

/-- An environment with all three variables present and non-empty. -/
def envGood : String → Option String := fun k =>
  if k = "INVESTEC_CLIENT_ID" then some "idv"
  else if k = "INVESTEC_CLIENT_SECRET" then some "secv"
  else if k = "INVESTEC_API_KEY" then some "keyv"
  else none

/-- Witness for C9 (amended): a fully populated environment yields exactly
the client built from the three values. -/
theorem get_client_spec_witness :
    (InvestecClient.init "idv" "secv" "keyv" =
      InvestecClient.init ((envGood "INVESTEC_CLIENT_ID").getD "")
        ((envGood "INVESTEC_CLIENT_SECRET").getD "")
        ((envGood "INVESTEC_API_KEY").getD "")) ∧
    (InvestecClient.init "idv" "secv" "keyv").access_token = none ∧
    (InvestecClient.init "idv" "secv" "keyv").token_expires_at = 0 :=
  (get_client_spec envGood).2 (InvestecClient.init "idv" "secv" "keyv") rfl

/-! ## C10: empty-string optionals behave exactly like omitted ones -/

/-- C10: optional string parameters are tested by truthiness, so passing the
empty string for `from_date`, `to_date` or `transaction_type` produces
exactly the same call as not supplying the argument, and
`transfer_multiple` with an empty `profile_id` sends a body with no
`profileId` key (identical to `profile_id = None`). -/
theorem empty_string_optionals_omitted (c : InvestecClient) (now : Int)
    (tokenResp : Response) (account_id from_account_id : String)
    (fd td tt : Option String) (ip : Bool) (transfer_list : List JValue)
    (resourceResp : Response) :
    (get_account_transactions c now tokenResp account_id (some "") td tt ip resourceResp =
      get_account_transactions c now tokenResp account_id none td tt ip resourceResp) ∧
    (get_account_transactions c now tokenResp account_id fd (some "") tt ip resourceResp =
      get_account_transactions c now tokenResp account_id fd none tt ip resourceResp) ∧
    (get_account_transactions c now tokenResp account_id fd td (some "") ip resourceResp =
      get_account_transactions c now tokenResp account_id fd td none ip resourceResp) ∧
    (transfer_multiple c now tokenResp from_account_id transfer_list (some "") resourceResp =
      transfer_multiple c now tokenResp from_account_id transfer_list none resourceResp) :=
  ⟨rfl, rfl, rfl, rfl⟩

end Investec
